import Mathlib

/-!
Verification of `adaptive_investment_strategy/core/invest_core.py`.

The module defines `MarketRegimeDetector`, `RiskManager` and
`PortfolioOptimizer`.  `detect_regime` fetches market data and classifies the
regime from its `volatility` and `trend` entries; `optimize_portfolio` detects
the regime and assigns a constant per-asset weight; `assess_strategy_risk` has
an empty body in the source, so the risk computation is modelled from the
specification (section 4.2).  Python numbers are embedded as rationals, a
fetched data dictionary as a structure with the two fields the code reads, and
raised exceptions as the `Except` monad.
-/

namespace InvestCore

/-- Market data dictionary returned by `DataCollector.fetch_data` as read by
`MarketRegimeDetector.detect_regime`: the keys `volatility` and `trend`. -/
structure MarketData where
  volatility : ℚ
  trend : ℚ
deriving DecidableEq, Repr

/-- Errors that components can raise.  `other` stands for any further Python
exception class. -/
inductive CoreError where
  | dataUnavailable
  | insufficientData
  | insufficientHistory
  | other (msg : String)
deriving DecidableEq, Repr

/-- The classification step of `MarketRegimeDetector.detect_regime` on fetched
data: `volatility > 20` gives `'volatile'`, otherwise `trend > 0` gives
`'bullish'`, otherwise `'bearish'`. -/
def classifyData (data : MarketData) : String :=
  if data.volatility > 20 then "volatile"
  else if data.trend > 0 then "bullish"
  else "bearish"

/-- `MarketRegimeDetector.detect_regime`: fetch data from the data collector
and classify; any exception raised by the fetch is logged and re-raised.  The
fetch outcome is passed as an argument. -/
def detect_regime (fetch : Except CoreError MarketData) :
    Except CoreError String :=
  match fetch with
  | .error e => .error e
  | .ok data => .ok (classifyData data)

/-- `PortfolioOptimizer.optimize_portfolio`: detect the current regime, then
return weight `0.3` per asset when the regime is `'bullish'` and `0.1` per
asset otherwise; any exception is logged and re-raised.  The Python dict
comprehension keys on distinct assets, hence `List.dedup`. -/
def optimize_portfolio (fetch : Except CoreError MarketData)
    (assets : List String) (goals : List (String × ℚ)) :
    Except CoreError (List (String × ℚ)) :=
  match detect_regime fetch with
  | .error e => .error e
  | .ok regime =>
    if regime = "bullish" then
      .ok (assets.dedup.map (fun a => (a, (3 : ℚ) / 10)))
    else
      .ok (assets.dedup.map (fun a => (a, (1 : ℚ) / 10)))

/-- Total weight of an allocation. -/
def allocSum (alloc : List (String × ℚ)) : ℚ :=
  (alloc.map Prod.snd).sum

/-- Whether an allocation's weights sum to 1 within the tolerance 1e-9. -/
def sumsToOne (alloc : List (String × ℚ)) : Prop :=
  |allocSum alloc - 1| ≤ 1 / 1000000000

instance (alloc : List (String × ℚ)) : Decidable (sumsToOne alloc) := by
  unfold sumsToOne; infer_instance

/-- Arithmetic mean of a list of rationals (0 on the empty list, as the
division by zero is absorbed). -/
def listMean (xs : List ℚ) : ℚ := xs.sum / xs.length

/-- Sample (Bessel-corrected) variance of a list of returns, 0 when fewer than
two observations are available. -/
def sampleVariance (xs : List ℚ) : ℚ :=
  if xs.length ≤ 1 then 0
  else ((xs.map (fun x => (x - listMean xs) ^ 2)).sum) / (xs.length - 1 : ℕ)

/-- Empirical quantile of a list at level `a`, by the historical-simulation
method: sort the observations and interpolate linearly between the two nearest
order statistics at rank `a * (n - 1)`. -/
def quantileLinear (xs : List ℚ) (a : ℚ) : ℚ :=
  let sorted := List.insertionSort (· ≤ ·) xs
  let n := sorted.length
  if n = 0 then 0
  else
    let r : ℚ := a * ((n : ℚ) - 1)
    let i : ℕ := min (n - 1) (Int.toNat ⌊r⌋)
    let lo := sorted.getD i 0
    let hi := sorted.getD (min (n - 1) (i + 1)) 0
    lo + (r - (i : ℚ)) * (hi - lo)

/-- Mean of the returns at or below the VaR threshold `v`; when no observation
lies in the tail the threshold itself is reported. -/
def cvarOf (xs : List ℚ) (v : ℚ) : ℚ :=
  let tail := xs.filter (fun x => x ≤ v)
  if tail.length = 0 then v else tail.sum / tail.length

/-- Configuration of the risk engine: minimum history length and VaR
confidence level. -/
structure RiskConfig where
  minHistory : ℕ
  varLevel : ℚ
deriving DecidableEq, Repr

/-- Risk metrics of a strategy: volatility, Value-at-Risk and Conditional
Value-at-Risk. -/
structure RiskProfile where
  volatility : ℝ
  value_at_risk : ℚ
  conditional_value_at_risk : ℚ

/-- Modelled from the spec: the body of `RiskManager.assess_strategy_risk` is
`pass` in the source, so the computation is taken from specification section
4.2 — a history shorter than the configured minimum fails with
`InsufficientHistoryError`; otherwise volatility is the sample standard
deviation, VaR the empirical quantile at the configured level with linear
interpolation, and CVaR the mean of the returns at or below the VaR level. -/
noncomputable def assess_strategy_risk (cfg : RiskConfig) (returns : List ℚ) :
    Except CoreError RiskProfile :=
  if returns.length < cfg.minHistory then .error .insufficientHistory
  else
    let v := quantileLinear returns cfg.varLevel
    .ok ⟨Real.sqrt (sampleVariance returns), v, cvarOf returns v⟩

/-- A market snapshot of the data model (section 3): identifier, timestamp,
price, volume and the derived rolling-volatility and trend-slope stats. -/
structure MarketSnapshot where
  asset_id : String
  timestamp : ℚ
  price : ℚ
  volume : ℚ
  volatilityStat : ℚ
  trendStat : ℚ
deriving DecidableEq, Repr

/-- Configuration of the regime classifier: minimum window size and the
volatility threshold of the regime rules. -/
structure ClassifierConfig where
  minWindow : ℕ
  volatileThreshold : ℚ
deriving DecidableEq, Repr

/-- A regime state: label, confidence and the size of the window it was
computed from. -/
structure RegimeState where
  label : String
  confidence : ℚ
  window_size : ℕ
deriving DecidableEq, Repr

/-- Modelled from the spec: the windowed classifier of specification section
4.1 is absent from the source (`detect_regime` takes no window and performs no
size check), so it is modelled from the spec's words — a window with fewer
than the configured minimum number of snapshots fails with
`InsufficientDataError`; otherwise the volatility and trend metrics are the
window means of the derived stats, the threshold rules map them to a label as
in `detect_regime`, and confidence is a normalized distance from the nearest
threshold boundary, clamped into `[0, 1]`. -/
def classify (cfg : ClassifierConfig) (window : List MarketSnapshot) :
    Except CoreError RegimeState :=
  if window.length < cfg.minWindow then .error .insufficientData
  else
    let vol := listMean (window.map MarketSnapshot.volatilityStat)
    let trend := listMean (window.map MarketSnapshot.trendStat)
    let label :=
      if vol > cfg.volatileThreshold then "volatile"
      else if trend > 0 then "bullish"
      else "bearish"
    let conf := min 1 |vol - cfg.volatileThreshold|
    .ok ⟨label, conf, window.length⟩

theorem listMean_replicate (n : ℕ) (c : ℚ) (hn : n ≠ 0) :
    listMean (List.replicate n c) = c := by
  have hq : (n : ℚ) ≠ 0 := Nat.cast_ne_zero.2 hn
  unfold listMean
  rw [List.sum_replicate, List.length_replicate, nsmul_eq_mul, mul_comm,
    mul_div_assoc, div_self hq, mul_one]

theorem sampleVariance_replicate (n : ℕ) (c : ℚ) :
    sampleVariance (List.replicate n c) = 0 := by
  unfold sampleVariance
  by_cases h : (List.replicate n c).length ≤ 1
  · rw [if_pos h]
  · rw [if_neg h]
    have hn : n ≠ 0 := by
      rw [List.length_replicate] at h; omega
    rw [List.map_replicate, listMean_replicate n c hn, sub_self]
    simp

theorem insertionSort_replicate (n : ℕ) (c : ℚ) :
    List.insertionSort (· ≤ ·) (List.replicate n c) = List.replicate n c := by
  have hp := List.perm_insertionSort (fun x y : ℚ => x ≤ y) (List.replicate n c)
  refine List.eq_replicate_iff.2 ⟨?_, ?_⟩
  · rw [hp.length_eq, List.length_replicate]
  · intro b hb
    exact List.eq_of_mem_replicate (hp.mem_iff.1 hb)

theorem getD_replicate_of_lt (n i : ℕ) (c : ℚ) (h : i < n) :
    (List.replicate n c).getD i 0 = c := by
  rw [List.getD_eq_getElem?_getD, List.getElem?_replicate, if_pos h]
  rfl

theorem quantileLinear_replicate (n : ℕ) (c a : ℚ) (hn : 1 ≤ n) :
    quantileLinear (List.replicate n c) a = c := by
  simp only [quantileLinear, insertionSort_replicate, List.length_replicate]
  rw [if_neg (by omega)]
  have h1 : min (n - 1) (Int.toNat ⌊a * ((n : ℚ) - 1)⌋) < n := by omega
  have h2 : min (n - 1) (min (n - 1) (Int.toNat ⌊a * ((n : ℚ) - 1)⌋) + 1) < n := by
    omega
  rw [getD_replicate_of_lt _ _ _ h1, getD_replicate_of_lt _ _ _ h2]
  ring

theorem cvarOf_replicate (n : ℕ) (c : ℚ) (hn : 1 ≤ n) :
    cvarOf (List.replicate n c) c = c := by
  have hq : (n : ℚ) ≠ 0 := Nat.cast_ne_zero.2 (by omega)
  have hfilter : List.filter (fun x => decide (x ≤ c)) (List.replicate n c)
      = List.replicate n c := by
    rw [List.filter_replicate]
    simp
  simp only [cvarOf, hfilter, List.length_replicate, List.sum_replicate,
    nsmul_eq_mul]
  rw [if_neg (by omega), mul_comm, mul_div_assoc, div_self hq, mul_one]

/-- C2: on a constant returns series of value `c`, of at least the configured
minimum length, the risk assessment succeeds with volatility 0, VaR `c` and
CVaR `c` (spec-modelled, section 4.2, since the source body is `pass`). -/
theorem assess_constant_returns (cfg : RiskConfig) (c : ℚ) (n : ℕ)
    (hmin : cfg.minHistory ≤ n) (hpos : 1 ≤ n) :
    assess_strategy_risk cfg (List.replicate n c) = .ok ⟨0, c, c⟩ := by
  simp only [assess_strategy_risk, List.length_replicate]
  rw [if_neg (by omega)]
  rw [quantileLinear_replicate n c cfg.varLevel hpos, cvarOf_replicate n c hpos,
    sampleVariance_replicate]
  simp [Real.sqrt_zero]

/-- C2 witness: the theorem applied to a constant series of three returns of
value 7/2 with minimum history 2 and VaR level 0.95. -/
theorem assess_constant_returns_witness :
    assess_strategy_risk ⟨2, 95 / 100⟩ (List.replicate 3 ((7 : ℚ) / 2)) =
      .ok ⟨0, 7 / 2, 7 / 2⟩ :=
  assess_constant_returns ⟨2, 95 / 100⟩ (7 / 2) 3 (by norm_num) (by norm_num)

/-- C3: for every input whose volatility metric is 25 and trend metric is +1
(with the hardcoded volatile threshold 20), regime detection returns
`'volatile'` and not `'bullish'`: the volatility check takes precedence over
the trend check. -/
theorem volatile_precedes_bullish (d : MarketData)
    (hv : d.volatility = 25) (ht : d.trend = 1) :
    classifyData d = "volatile" ∧ classifyData d ≠ "bullish" := by
  have h20 : d.volatility > 20 := by rw [hv]; norm_num
  unfold classifyData
  rw [if_pos h20]
  exact ⟨rfl, by decide⟩

/-- C3 witness: the theorem applied to the concrete data point with
volatility 25 and trend 1. -/
theorem volatile_precedes_bullish_witness :
    classifyData ⟨25, 1⟩ = "volatile" ∧ classifyData ⟨25, 1⟩ ≠ "bullish" :=
  volatile_precedes_bullish ⟨25, 1⟩ rfl rfl

/-- C5 counterexample: at volatility exactly 20 and trend 1 the code returns
`'bullish'`, so the tie does not resolve to a lower-risk label (neutral or
bearish) regardless of trend, contrary to the claim. -/
theorem tie_can_be_bullish : classifyData ⟨20, 1⟩ = "bullish" := by decide

/-- C5 amended: at volatility exactly 20 the label is never `'volatile'` (the
tie on the volatility threshold resolves against the higher-risk volatile
label), and the trend then decides normally: `'bullish'` when trend > 0,
`'bearish'` otherwise. -/
theorem tie_resolves_against_volatile (d : MarketData)
    (hv : d.volatility = 20) :
    classifyData d ≠ "volatile" ∧
      classifyData d = (if d.trend > 0 then "bullish" else "bearish") := by
  have h20 : ¬ d.volatility > 20 := by rw [hv]; norm_num
  unfold classifyData
  rw [if_neg h20]
  refine ⟨?_, rfl⟩
  by_cases ht : d.trend > 0
  · rw [if_pos ht]; decide
  · rw [if_neg ht]; decide

/-- C5 witness: the amended theorem applied to the concrete data point with
volatility exactly 20 and trend 1. -/
theorem tie_resolves_against_volatile_witness :
    classifyData ⟨20, 1⟩ ≠ "volatile" ∧
      classifyData ⟨20, 1⟩ = (if (1 : ℚ) > 0 then "bullish" else "bearish") :=
  tie_resolves_against_volatile ⟨20, 1⟩ rfl

/-- C7: both components log and re-raise — an error raised inside the fetch
propagates unchanged through `detect_regime` and through
`optimize_portfolio`, and each call succeeds exactly when its inner call
succeeds; no retry happens inside either component. -/
theorem component_errors_propagate (fetch : Except CoreError MarketData)
    (assets : List String) (goals : List (String × ℚ)) :
    (∀ e, fetch = .error e →
        detect_regime fetch = .error e ∧
        optimize_portfolio fetch assets goals = .error e) ∧
      ((detect_regime fetch).isOk ↔ fetch.isOk) ∧
      ((optimize_portfolio fetch assets goals).isOk ↔
        (detect_regime fetch).isOk) := by
  cases fetch with
  | error e =>
    refine ⟨fun e2 h => ?_, ?_, ?_⟩
    · cases h
      exact ⟨rfl, rfl⟩
    · simp [detect_regime, Except.isOk, Except.toBool]
    · simp [detect_regime, optimize_portfolio, Except.isOk, Except.toBool]
  | ok d =>
    refine ⟨fun e2 h => by simp at h, ?_, ?_⟩
    · simp [detect_regime, Except.isOk, Except.toBool]
    · simp only [detect_regime, optimize_portfolio]
      split <;> simp [Except.isOk, Except.toBool]

/-- C7 witness: a data-unavailable failure of the fetch surfaces unchanged
from both `detect_regime` and `optimize_portfolio`. -/
theorem component_errors_propagate_witness :
    detect_regime (.error CoreError.dataUnavailable)
        = .error CoreError.dataUnavailable ∧
      optimize_portfolio (.error CoreError.dataUnavailable) ["A"] []
        = .error CoreError.dataUnavailable :=
  (component_errors_propagate (.error CoreError.dataUnavailable) ["A"] []).1
    CoreError.dataUnavailable rfl

/-- C8: regime classification is deterministic — two inputs with the same
volatility and trend metrics classify to the same label. -/
theorem classify_deterministic (d₁ d₂ : MarketData)
    (hv : d₁.volatility = d₂.volatility) (ht : d₁.trend = d₂.trend) :
    classifyData d₁ = classifyData d₂ := by
  unfold classifyData
  rw [hv, ht]

/-- C8 witness: the theorem applied to two copies of a concrete data point. -/
theorem classify_deterministic_witness :
    classifyData ⟨25, 1⟩ = classifyData ⟨25, 1⟩ :=
  classify_deterministic ⟨25, 1⟩ ⟨25, 1⟩ rfl rfl

/-- C9: the allocation returned by `optimize_portfolio` is independent of the
`goals` argument — the code never reads it. -/
theorem optimize_ignores_goals (fetch : Except CoreError MarketData)
    (assets : List String) (g₁ g₂ : List (String × ℚ)) :
    optimize_portfolio fetch assets g₁ = optimize_portfolio fetch assets g₂ :=
  rfl

/-- C10: on any successfully fetched data the detector returns exactly one of
`'volatile'`, `'bullish'`, `'bearish'`; it never returns `'neutral'`. -/
theorem classify_label_range (d : MarketData) :
    (classifyData d = "volatile" ∨ classifyData d = "bullish" ∨
        classifyData d = "bearish") ∧
      classifyData d ≠ "neutral" := by
  unfold classifyData
  by_cases hv : d.volatility > 20
  · rw [if_pos hv]; exact ⟨Or.inl rfl, by decide⟩
  · rw [if_neg hv]
    by_cases ht : d.trend > 0
    · rw [if_pos ht]; exact ⟨Or.inr (Or.inl rfl), by decide⟩
    · rw [if_neg ht]; exact ⟨Or.inr (Or.inr rfl), by decide⟩

/-- C1: the claim fails on the code — for the single asset list `["A"]` under
a bullish fetch (volatility 10, trend 1) the allocation is `{A: 0.3}`, whose
weights sum to 0.3, not to 1 within 1e-9 as the spec requires. -/
theorem allocation_sum_not_one :
    optimize_portfolio (.ok ⟨10, 1⟩) ["A"] [] = .ok [("A", 3 / 10)] ∧
      ¬ sumsToOne [("A", (3 : ℚ) / 10)] := by
  refine ⟨rfl, ?_⟩
  unfold sumsToOne allocSum
  simp only [List.map_cons, List.map_nil, List.sum_cons, List.sum_nil]
  have habs : |((3 : ℚ) / 10 + 0) - 1| = 7 / 10 := by
    rw [show ((3 : ℚ) / 10 + 0) - 1 = -(7 / 10) by norm_num, abs_neg,
      abs_of_nonneg (by norm_num)]
  rw [habs]
  norm_num

/-- C4: the claim fails on the code — for assets `[A, B]`, goals
`{A: 0.5, B: 0.5}` and a volatile fetch (volatility 25, trend 0) the code
returns `{A: 0.1, B: 0.1}` (goals are ignored), not `{A: 0.5, B: 0.5}`. -/
theorem allocation_ignores_goal_ratios :
    optimize_portfolio (.ok ⟨25, 0⟩) ["A", "B"] [("A", 1 / 2), ("B", 1 / 2)]
      = .ok [("A", 1 / 10), ("B", 1 / 10)] := by
  rfl

/-- C6: a window with fewer than the configured minimum number of snapshots
fails with `InsufficientDataError`, and every window meeting the minimum
classifies successfully. -/
theorem classify_window_minimum (cfg : ClassifierConfig)
    (window : List MarketSnapshot) :
    (window.length < cfg.minWindow →
        classify cfg window = .error .insufficientData) ∧
      (cfg.minWindow ≤ window.length →
        ∃ st, classify cfg window = .ok st) := by
  constructor
  · intro h
    unfold classify
    rw [if_pos h]
  · intro h
    unfold classify
    rw [if_neg (by omega)]
    exact ⟨_, rfl⟩

/-- C6 witness: with minimum window 2, the empty window fails with
`InsufficientDataError` and a two-snapshot window succeeds. -/
theorem classify_window_minimum_witness :
    classify ⟨2, 20⟩ [] = .error .insufficientData ∧
      ∃ st, classify ⟨2, 20⟩
          [⟨"A", 0, 1, 1, 5, 1⟩, ⟨"A", 1, 1, 1, 5, 1⟩] = .ok st :=
  ⟨(classify_window_minimum ⟨2, 20⟩ []).1 (by decide),
    (classify_window_minimum ⟨2, 20⟩
      [⟨"A", 0, 1, 1, 5, 1⟩, ⟨"A", 1, 1, 1, 5, 1⟩]).2 (by decide)⟩

end InvestCore
